import Mathlib

/-
Shallow embedding of src/hooks/statusline.py (Jacques statusLine script).

Modelling conventions:
  * Python values parsed from JSON are modelled by the `Json` inductive;
    JSON numbers are modelled as integers (the claims only exercise
    integral values; floating point is out of scope).
  * Filesystem, environment, subprocesses and the wall clock are passed
    explicitly as "world" records; the on-disk cache directory is a store
    mapping file paths to (content, mtime) entries, the newest entry for a
    path shadowing older ones (Python overwrites the file in place).
  * A Python function that can raise an uncaught exception is modelled
    with an `Option`/`Except` result, `none`/`.error` meaning the
    exception propagates past the function.
  * `int(...)` is modelled for optionally signed decimal digit strings
    with surrounding whitespace (Python additionally accepts underscore
    separators and non-ASCII digits; none of the claims exercise those).
  * `tempfile.gettempdir()` is modelled as the constant "/tmp".
-/

/-- Python values produced by `json.load` / `json.loads`, with numbers
restricted to integers. -/
inductive Json where
  | null : Json
  | bool : Bool → Json
  | num  : Int → Json
  | str  : String → Json
  | arr  : List Json → Json
  | obj  : List (String × Json) → Json

/-- Python `dict.get(k)` on a parsed JSON value; `none` both when the key
is missing and when the value is not a dict (where Python would raise,
callers handle that case separately). -/
def jGet : Json → String → Option Json
  | Json.obj fields, k => (fields.find? (fun f => f.1 == k)).map (·.2)
  | _, _ => none

/-- Python `dict.get(k, d)` on a parsed JSON object. -/
def jGetD (j : Json) (k : String) (d : Json) : Json :=
  (jGet j k).getD d

/-- Python truthiness of a parsed JSON value. -/
def jsonTruthy : Json → Bool
  | Json.null => false
  | Json.bool b => b
  | Json.num n => n != 0
  | Json.str s => s != ""
  | Json.arr xs => !xs.isEmpty
  | Json.obj fs => !fs.isEmpty

/-- Whether a parsed JSON value is a dict (`isinstance(x, dict)`). -/
def jsonIsObj : Json → Bool
  | Json.obj _ => true
  | _ => false

/-- Python `str.split(sep)` for a one-character separator. -/
def splitChar (sep : Char) (s : String) : List String :=
  let rec go : List Char → List Char → List (List Char)
    | [], acc => [acc.reverse]
    | c :: cs, acc => if c = sep then acc.reverse :: go cs [] else go cs (c :: acc)
  (go s.data []).map String.mk

/-- Characters stripped by Python `str.strip()`. -/
def isPyWS (c : Char) : Bool :=
  c == ' ' || c == '\t' || c == '\n' || c == '\r' || c == '\x0b' || c == '\x0c'

/-- Python `str.strip()`. -/
def pyStrip (s : String) : String :=
  String.mk (((s.data.dropWhile isPyWS).reverse.dropWhile isPyWS).reverse)

/-- Python slicing `s[:n]` (by code point). -/
def pyTake (s : String) (n : Nat) : String :=
  String.mk (s.data.take n)

/-- Python `s.replace('\n', ' ')`. -/
def collapseNewlines (s : String) : String :=
  String.mk (s.data.map (fun c => if c = '\n' then ' ' else c))

/-- Position just after the last '/' in a character list, 0 if none. -/
def lastSlashEnd (cs : List Char) : Nat :=
  let rec go : List Char → Nat → Nat → Nat
    | [], _, best => best
    | c :: rest, i, best => go rest (i + 1) (if c = '/' then i + 1 else best)
  go cs 0 0

/-- Python `os.path.dirname` with POSIX separators. -/
def pyDirname (p : String) : String :=
  let i := lastSlashEnd p.data
  let head := p.data.take i
  if head.all (· = '/') then String.mk head
  else String.mk ((head.reverse.dropWhile (· = '/')).reverse)

/-- Python `os.path.basename` with POSIX separators. -/
def pyBasename (p : String) : String :=
  String.mk (p.data.drop (lastSlashEnd p.data))

/-- Python `os.path.join(a, b)` for two components, POSIX semantics. -/
def pyJoin (a b : String) : String :=
  if b.data.head? = some '/' then b
  else if a = "" then b
  else if a.data.getLast? = some '/' then a ++ b
  else a ++ "/" ++ b

/-- Numeric value of a list of decimal digits. -/
def digitsVal (cs : List Char) : Nat :=
  cs.foldl (fun acc c => acc * 10 + (c.toNat - '0'.toNat)) 0

/-- Python `int(s)` for decimal strings: strip whitespace, optional sign,
then digits; `none` models a raised `ValueError`. -/
def pyIntOfString (s : String) : Option Int :=
  let cs := (pyStrip s).data
  match cs with
  | '+' :: rest =>
      if rest ≠ [] ∧ rest.all (fun c => '0' ≤ c ∧ c ≤ '9') then some (digitsVal rest) else none
  | '-' :: rest =>
      if rest ≠ [] ∧ rest.all (fun c => '0' ≤ c ∧ c ≤ '9') then some (-(digitsVal rest : Int)) else none
  | _ =>
      if cs ≠ [] ∧ cs.all (fun c => '0' ≤ c ∧ c ≤ '9') then some (digitsVal cs) else none

/-- Python `int(x)` on a parsed JSON value; `none` models a raised
exception (e.g. `int(None)`, `int([])`). -/
def pyIntOfJson : Json → Option Int
  | Json.num n => some n
  | Json.bool b => some (if b then 1 else 0)
  | Json.str s => pyIntOfString s
  | _ => none

/-- Rendering of a parsed JSON value inside a Python f-string (`str(x)`).
String escaping inside the repr of composite values is not modelled; the
claims only exercise plain strings here. -/
def pyFStr : Json → String
  | Json.null => "None"
  | Json.bool b => if b then "True" else "False"
  | Json.num n => toString n
  | Json.str s => s
  | Json.arr _ => "\x7blist\x7d"
  | Json.obj _ => "\x7bdict\x7d"

/-- The platform temporary directory (`tempfile.gettempdir()`), modelled
as the POSIX default. -/
def TMPDIR : String := "/tmp"

/-- One cache file: its content and its modification time (seconds). -/
structure CacheEntry where
  content : String
  mtime : Int
deriving DecidableEq

/-- The on-disk cache directory: newest entry for a path shadows older
ones. -/
abbrev Store := List (String × CacheEntry)

/-- Look up the newest entry for a path. -/
def storeGet : Store → String → Option CacheEntry
  | [], _ => none
  | (k, e) :: rest, p => if k = p then some e else storeGet rest p

/-- Embeds `cache_path` (statusline.py:34): temp-dir file path from a
namespace and a filesystem-safe-escaped key. -/
def sanitizeKey (k : String) : String :=
  String.mk (k.data.map (fun c =>
    if c = '/' then '-' else if c = '\\' then '-' else if c = ':' then '-' else c))

/-- Embeds `cache_path` (statusline.py:34). -/
def cache_path (pfx key : String) : String :=
  TMPDIR ++ "/jacques-" ++ pfx ++ "-" ++ sanitizeKey key ++ ".cache"

/-- Embeds `read_cache` (statusline.py:40): return the content if the
file exists and `now - mtime ≤ max_age_seconds`. -/
def read_cache (store : Store) (path : String) (maxAge now : Int) : Option String :=
  match storeGet store path with
  | none => none
  | some e => if now - e.mtime > maxAge then none else some e.content

/-- Embeds `write_cache` (statusline.py:55): overwrite the file, stamping
the current time. -/
def write_cache (store : Store) (path content : String) (now : Int) : Store :=
  (path, ⟨content, now⟩) :: store

/-- The three git fields resolved by `detect_git_info`. -/
structure GitInfo where
  git_branch : String
  git_worktree : String
  git_repo_root : String
deriving DecidableEq

/-- World state seen by `detect_git_info`: directory existence, platform,
helper-script availability, subprocess outcomes (`none` models a raised
exception, including a timeout; `some (rc, out)` an exit code with its
stdout), and `os.path.realpath`. -/
structure GitWorld where
  isDir : String → Bool
  isWindows : Bool
  helperUsable : Bool
  helperRun : Option (Int × String)
  inlineRun : Option (Int × String)
  realpath : String → String

/-- Result of `detect_git_info`, with a trace of whether the cache was
consulted and whether it was written. -/
structure GitResult where
  info : GitInfo
  store : Store
  cacheRead : Bool
  cacheWritten : Bool
deriving DecidableEq

/-- Parse three newline-delimited fields, missing lines defaulting to
empty (statusline.py:83-86 and 99-102). -/
def parseThreeLines (s : String) : GitInfo :=
  let lines := splitChar '\n' s
  ⟨lines.getD 0 "", lines.getD 1 "", lines.getD 2 ""⟩

/-- Serialize the three git fields for the cache
(statusline.py:103,129). -/
def joinGitFields (g : GitInfo) : String :=
  g.git_branch ++ "\n" ++ g.git_worktree ++ "\n" ++ g.git_repo_root

/-- Embeds `detect_git_info` (statusline.py:68): validate the directory,
consult the 60s cache, try the helper script, fall back to an inline git
query, and always cache the result on a miss. -/
def detect_git_info (projectDir : String) (w : GitWorld) (store : Store) (now : Int) :
    GitResult :=
  if projectDir = "" ∨ w.isDir projectDir = false then
    ⟨⟨"", "", ""⟩, store, false, false⟩
  else
    let cp := cache_path "git" projectDir
    match read_cache store cp 60 now with
    | some cached => ⟨parseThreeLines cached, store, true, false⟩
    | none =>
      let helperRes : Option GitInfo :=
        if w.isWindows = false ∧ w.helperUsable then
          match w.helperRun with
          | some (rc, out) => if rc = 0 then some (parseThreeLines out) else none
          | none => none
        else none
      match helperRes with
      | some g => ⟨g, write_cache store cp (joinGitFields g) now, true, true⟩
      | none =>
        let g : GitInfo :=
          match w.inlineRun with
          | some (rc, out) =>
            if rc = 0 then
              let lines := splitChar '\n' (pyStrip out)
              if lines.length ≥ 2 then
                let branch := lines.getD 0 ""
                let common := lines.getD 1 ""
                if common = ".git" then ⟨branch, "", w.realpath projectDir⟩
                else if common ≠ "" then
                  ⟨branch, pyBasename projectDir,
                    pyDirname (w.realpath (pyJoin projectDir common))⟩
                else ⟨branch, "", ""⟩
              else ⟨"", "", ""⟩
            else ⟨"", "", ""⟩
          | none => ⟨"", "", ""⟩
        ⟨g, write_cache store cp (joinGitFields g) now, true, true⟩

/-- One line of the transcript file, as seen by the title resolver's
scans: whether the raw text contains the `"type":"summary"` /
`"type":"user"` substring markers (either spacing variant,
statusline.py:178,195), and the result of `json.loads` on it (`none`
models a `JSONDecodeError`). -/
structure TranscriptLine where
  hasSummaryTag : Bool
  hasUserTag : Bool
  parsed : Option Json

/-- Filesystem seen by `extract_session_title`: parsed content of a
sessions-index file by path (`none` when the file is absent, unreadable
or unparsable — all leave the title unchanged), and the transcript's
lines by path (`none` when `os.path.isfile` is false). -/
structure TitleWorld where
  indexFileAt : String → Option Json
  transcriptAt : String → Option (List TranscriptLine)

/-- String content of an object field, defaulting to empty; non-string
values are modelled as empty (the claims only exercise string fields). -/
def jGetStrD (j : Json) (k : String) : String :=
  match jGet j k with
  | some (Json.str s) => s
  | _ => ""

/-- Tier-1 scan of the index entries (statusline.py:165-168): first entry
whose `sessionId` equals the session id wins, its `summary` taken even
when empty; a non-dict entry raises and the surrounding handler leaves
the title empty. -/
def indexFirstMatch : List Json → String → String
  | [], _ => ""
  | e :: es, sid =>
    match e with
    | Json.obj _ =>
      (match jGet e "sessionId" with
       | some (Json.str s) =>
         if s = sid then jGetStrD e "summary" else indexFirstMatch es sid
       | _ => indexFirstMatch es sid)
    | _ => ""

/-- Tier 1 (statusline.py:157-170): look up the session in the parsed
sessions-index data; any shape other than a dict with an `entries` list
degrades to an empty title via the surrounding exception handler. -/
def indexTitle (indexData : Json) (sid : String) : String :=
  match indexData with
  | Json.obj _ =>
    (match jGet indexData "entries" with
     | some (Json.arr entries) => indexFirstMatch entries sid
     | _ => "")
  | _ => ""

/-- Tier-2 scan (statusline.py:173-187): every summary-tagged line that
parses to a dict with a non-empty `summary` overwrites the candidate, so
the last one wins; a summary-tagged line parsing to a non-dict raises
(`entry.get`) and the outer handler stops the scan keeping the current
candidate; unparsable lines are skipped. -/
def tier2Scan : List TranscriptLine → String → String
  | [], acc => acc
  | l :: ls, acc =>
    if l.hasSummaryTag then
      match l.parsed with
      | none => tier2Scan ls acc
      | some j =>
        match j with
        | Json.obj _ =>
          let s := jGetStrD j "summary"
          tier2Scan ls (if s ≠ "" then s else acc)
        | _ => acc
    else tier2Scan ls acc

/-- Tier-3 scan (statusline.py:190-214): first user-tagged line whose
`message.content` is a non-empty plain string not starting (after
stripping) with `<` or `[`; the title is the stripped, newline-collapsed
content truncated to 50 characters plus `...`; a user-tagged line parsing
to a non-dict raises and the outer handler ends the tier with an empty
title. -/
def tier3Scan : List TranscriptLine → String
  | [] => ""
  | l :: ls =>
    if l.hasUserTag then
      match l.parsed with
      | none => tier3Scan ls
      | some j =>
        match j with
        | Json.obj _ =>
          let msg := jGetD j "message" (Json.obj [])
          let content : Json :=
            if jsonIsObj msg then jGetD msg "content" (Json.str "") else Json.str ""
          (match content with
           | Json.str c =>
             if c = "" then tier3Scan ls
             else
               let fc := pyTake (pyStrip c) 1
               if fc = "<" ∨ fc = "[" then tier3Scan ls
               else pyTake (collapseNewlines (pyStrip c)) 50 ++ "..."
           | _ => tier3Scan ls)
        | _ => ""
    else tier3Scan ls

/-- Embeds `extract_session_title` (statusline.py:137): empty session id
short-circuits; otherwise consult the 300s cache, then the three tiers in
order, first non-empty winning; only a non-empty result is cached. -/
def extract_session_title (sid tp : String) (w : TitleWorld) (store : Store) (now : Int) :
    String × Store :=
  if sid = "" then ("", store)
  else
    let cp := cache_path "title" sid
    match read_cache store cp 300 now with
    | some c => (c, store)
    | none =>
      let t1 :=
        if tp ≠ "" then
          match w.indexFileAt (pyJoin (pyDirname tp) "sessions-index.json") with
          | some d => indexTitle d sid
          | none => ""
        else ""
      let t2 :=
        if t1 = "" then
          if tp ≠ "" then
            match w.transcriptAt tp with
            | some ls => tier2Scan ls ""
            | none => ""
          else ""
        else t1
      let t3 :=
        if t2 = "" then
          if tp ≠ "" then
            match w.transcriptAt tp with
            | some ls => tier3Scan ls
            | none => ""
          else ""
        else t2
      if t3 ≠ "" then (t3, write_cache store cp t3 now) else (t3, store)

/-- The resolved auto-compact settings (statusline.py:232-236). -/
structure ACSettings where
  enabled : Bool
  threshold : Int
  bug_threshold : Option Int
deriving DecidableEq

/-- Environment: ordered variable bindings, first match wins. -/
abbrev EnvList := List (String × String)

/-- Python `os.environ.get(k)`. -/
def envGet : EnvList → String → Option String
  | [], _ => none
  | (k, v) :: rest, q => if k = q then some v else envGet rest q

/-- The settings cache file path (statusline.py:238). -/
def settingsCachePath : String := TMPDIR ++ "/jacques-settings.cache"

/-- Embeds `read_autocompact_settings` (statusline.py:227): defaults with
the threshold from the environment override (`int` on it raises when the
variable is set but unparsable — modelled by `.error`), then a fresh
3-field cached triple if present (`int(parts[2])` raises when the third
field is neither `null` nor an integer), else the host config file, and
re-cache. `configData` is the parsed settings.json (`none` when the file
is absent, unreadable or unparsable — all leave the defaults). -/
def read_autocompact_settings (env : EnvList) (configData : Option Json)
    (store : Store) (now : Int) : Except Unit (ACSettings × Store) :=
  match pyIntOfString ((envGet env "CLAUDE_AUTOCOMPACT_PCT_OVERRIDE").getD "95") with
  | none => Except.error ()
  | some thr0 =>
    let cachedBranch : Option (Except Unit ACSettings) :=
      match read_cache store settingsCachePath 300 now with
      | none => none
      | some cached =>
        let parts := splitChar '|' cached
        if parts.length ≥ 3 then
          let enabled := parts.getD 0 "" == "true"
          let thr := (pyIntOfString (parts.getD 1 "")).getD thr0
          some (if parts.getD 2 "" = "null" then
                  Except.ok ⟨enabled, thr, none⟩
                else
                  match pyIntOfString (parts.getD 2 "") with
                  | none => Except.error ()
                  | some b => Except.ok ⟨enabled, thr, some b⟩)
        else none
    match cachedBranch with
    | some (Except.error _) => Except.error ()
    | some (Except.ok s) => Except.ok (s, store)
    | none =>
      let s1 : ACSettings :=
        match configData with
        | some d =>
          (match d with
           | Json.obj _ =>
             (match jGet d "autoCompact" with
              | some (Json.bool false) => ⟨false, thr0, some 78⟩
              | _ => ⟨true, thr0, none⟩)
           | _ => ⟨true, thr0, none⟩)
        | none => ⟨true, thr0, none⟩
      let bugStr := match s1.bug_threshold with
        | some b => toString b
        | none => "null"
      let content := (if s1.enabled then "true" else "false") ++ "|" ++
        toString s1.threshold ++ "|" ++ bugStr
      Except.ok (s1, write_cache store settingsCachePath content now)

/-- Embeds `build_terminal_key` (statusline.py:279): first non-empty of a
fixed ordered list of terminal-emulator identifiers, tagged. -/
def build_terminal_key (env : EnvList) : String :=
  let g := fun k => (envGet env k).getD ""
  if g "ITERM_SESSION_ID" ≠ "" then "ITERM:" ++ g "ITERM_SESSION_ID"
  else if g "KITTY_WINDOW_ID" ≠ "" then "KITTY:" ++ g "KITTY_WINDOW_ID"
  else if g "WEZTERM_PANE" ≠ "" then "WEZTERM:" ++ g "WEZTERM_PANE"
  else if g "WT_SESSION" ≠ "" then "WT:" ++ g "WT_SESSION"
  else if g "TERM_SESSION_ID" ≠ "" then "TERM:" ++ g "TERM_SESSION_ID"
  else ""

/-- The outbound payload built by `main` (statusline.py:394-418). -/
structure Payload where
  session_id : String
  used_percentage : Json
  remaining_percentage : Json
  context_window_size : Json
  total_input_tokens : Json
  total_output_tokens : Json
  model : Json
  model_display_name : Json
  cwd : Json
  project_dir : Json
  timestamp : Int
  autocompact : ACSettings
  terminal_key : String
  session_title : String
  transcript_path : Json
  git_branch : String
  git_worktree : String
  git_repo_root : String

/-- World state seen by `send_to_server`: platform, the socket-path
environment override, `os.path.exists`, and the outcome of the pipe/
socket open-connect-write sequence (`.error` models any raised `OSError`
or timeout). Serialization of the payload is not modelled (it cannot fail
on this payload shape). -/
structure SendWorld where
  isWindows : Bool
  envSocketPath : Option String
  pathExists : String → Bool
  ioResult : Except Unit Unit

/-- Result of a send attempt: delivered or not, and whether a socket
connection was attempted. -/
structure SendResult where
  delivered : Bool
  connectAttempted : Bool
deriving DecidableEq

/-- The IPC path chosen by `send_to_server` (statusline.py:309-310). -/
def jacquesSocketPath (w : SendWorld) : String :=
  (w.envSocketPath).getD (if w.isWindows then "\\\\.\\pipe\\jacques" else "/tmp/jacques.sock")

/-- Embeds `send_to_server` (statusline.py:304): on POSIX, a missing
socket path short-circuits to not-delivered before any connection; every
I/O failure is caught and converted to not-delivered. -/
def send_to_server (_p : Payload) (w : SendWorld) : SendResult :=
  let socketPath := jacquesSocketPath w
  if w.isWindows then
    match w.ioResult with
    | Except.ok _ => ⟨true, false⟩
    | Except.error _ => ⟨false, false⟩
  else if w.pathExists socketPath = false then ⟨false, false⟩
  else
    match w.ioResult with
    | Except.ok _ => ⟨true, true⟩
    | Except.error _ => ⟨false, true⟩

/-- World state seen by one invocation of `main`. -/
structure MainWorld where
  env : EnvList
  skipFileExists : Bool
  stdin : Option Json
  nowMs : Int
  nowSec : Int
  store : Store
  gitW : GitWorld
  titleW : TitleWorld
  configData : Option Json
  sendW : SendWorld

/-- Observable outcome of one invocation of `main` that did not raise:
what was written to stdout, the final cache store, and whether
`send_to_server` was invoked. -/
structure MainResult where
  stdout : String
  store : Store
  sendAttempted : Bool
deriving DecidableEq

/-- The `context_window.used_percentage` field as extracted by `main`
(statusline.py:359-360), with the defaults substituted. -/
def ctxUsedOf (input : Json) : Json :=
  jGetD (jGetD input "context_window" (Json.obj [])) "used_percentage" (Json.num 0)

/-- The integer shown in the status line (statusline.py:424):
`int(used_pct) if used_pct else 0`; `none` models a raised exception. -/
def usedIntOf (input : Json) : Option Int :=
  if jsonTruthy (ctxUsedOf input) then pyIntOfJson (ctxUsedOf input) else some 0

/-- Field extraction `model`/`display_name` (statusline.py:366-368). -/
def modelDataOf (input : Json) : Json := jGetD input "model" (Json.obj [])

/-- Display name as extracted by `main` (statusline.py:368). -/
def modelDisplayOf (input : Json) : Json :=
  let md := modelDataOf input
  if jsonIsObj md then jGetD md "display_name" (Json.str "Unknown") else Json.str "Unknown"

/-- Model id as extracted by `main` (statusline.py:367). -/
def modelIdOf (input : Json) : Json :=
  let md := modelDataOf input
  if jsonIsObj md then jGetD md "id" (Json.str "unknown") else Json.str "unknown"

/-- Field extraction `workspace` (statusline.py:370). -/
def workspaceOf (input : Json) : Json := jGetD input "workspace" (Json.obj [])

/-- Working directory as extracted by `main` (statusline.py:371):
`workspace.get('current_dir', '') or input_data.get('cwd', '')` when the
workspace is a dict, else `input_data.get('cwd', '')`. -/
def cwdOf (input : Json) : Json :=
  let ws := workspaceOf input
  if jsonIsObj ws then
    let cd := jGetD ws "current_dir" (Json.str "")
    if jsonTruthy cd then cd else jGetD input "cwd" (Json.str "")
  else jGetD input "cwd" (Json.str "")

/-- Project directory as extracted by `main` (statusline.py:372). -/
def projectDirOf (input : Json) : Json :=
  let ws := workspaceOf input
  if jsonIsObj ws then jGetD ws "project_dir" (Json.str "") else Json.str ""

/-- The git resolution step of `main` (statusline.py:376-377): the git
directory is the project directory falling back to the working directory;
a falsy directory skips the resolver. A truthy non-string directory is
passed to `detect_git_info`, where `os.path.isdir` on a non-path is
modelled as false, so the empty context comes back without touching the
cache. -/
def gitResOf (input : Json) (w : MainWorld) : GitResult :=
  let gitDirJ := if jsonTruthy (projectDirOf input) then projectDirOf input else cwdOf input
  if jsonTruthy gitDirJ then
    match gitDirJ with
    | Json.str s => detect_git_info s w.gitW w.store w.nowSec
    | _ => ⟨⟨"", "", ""⟩, w.store, false, false⟩
  else ⟨⟨"", "", ""⟩, w.store, false, false⟩

/-- The title resolution step of `main` (statusline.py:380): a falsy
session id returns the empty title without touching anything; a truthy
non-string session id raises (`none`) at `cache_path`; a truthy
non-string transcript path raises inside tier 1 unless the title cache
hits first; falsy non-string transcript paths behave as the empty
path. -/
def titlePairOf (input : Json) (w : MainWorld) (store1 : Store) : Option (String × Store) :=
  let sessionIdJ := jGetD input "session_id" (Json.str "")
  let transcriptJ := jGetD input "transcript_path" (Json.str "")
  if jsonTruthy sessionIdJ then
    match sessionIdJ with
    | Json.str sid =>
      (match transcriptJ with
       | Json.str tp => some (extract_session_title sid tp w.titleW store1 w.nowSec)
       | _ =>
         if jsonTruthy transcriptJ then
           match read_cache store1 (cache_path "title" sid) 300 w.nowSec with
           | some c => some (c, store1)
           | none => none
         else some (extract_session_title sid "" w.titleW store1 w.nowSec))
    | _ => none
  else some ("", store1)

/-- Body of `main` after the skip checks and input validation
(statusline.py:354-433). `none` models an uncaught exception: a non-dict
input or `context_window` (`.get` raises), a raise inside the title
resolution step (`titlePairOf`), a raise inside the settings resolver, or
`int()` failing on the used percentage. -/
def mainBody (input : Json) (w : MainWorld) : Option MainResult :=
  match input with
  | Json.obj _ =>
    let sessionIdJ := jGetD input "session_id" (Json.str "")
    let ctxJ := jGetD input "context_window" (Json.obj [])
    (match ctxJ with
     | Json.obj _ =>
       let usedJ := jGetD ctxJ "used_percentage" (Json.num 0)
       let remJ := jGetD ctxJ "remaining_percentage" (Json.num 100)
       let sizeJ := jGetD ctxJ "context_window_size" (Json.num 0)
       let tinJ := jGetD ctxJ "total_input_tokens" (Json.num 0)
       let toutJ := jGetD ctxJ "total_output_tokens" (Json.num 0)
       let displayJ := modelDisplayOf input
       let transcriptJ := jGetD input "transcript_path" (Json.str "")
       let gitRes := gitResOf input w
       (match titlePairOf input w gitRes.store with
        | none => none
        | some (sessionTitle, store2) =>
          (match read_autocompact_settings w.env w.configData store2 w.nowSec with
           | Except.error _ => none
           | Except.ok (ac, store3) =>
             if jsonTruthy sessionIdJ = false then some ⟨"ctx:?%", store3, false⟩
             else
               match sessionIdJ with
               | Json.str sid =>
                 let payload : Payload :=
                   ⟨sid, usedJ, remJ, sizeJ, tinJ, toutJ, modelIdOf input, displayJ,
                    cwdOf input, projectDirOf input, w.nowMs, ac, build_terminal_key w.env,
                    sessionTitle, transcriptJ, gitRes.info.git_branch,
                    gitRes.info.git_worktree, gitRes.info.git_repo_root⟩
                 let _send := send_to_server payload w.sendW
                 (match usedIntOf input with
                  | none => none
                  | some n =>
                    let gitPart :=
                      if gitRes.info.git_branch ≠ "" then " @" ++ gitRes.info.git_branch else ""
                    let acPart :=
                      if ac.enabled then "ON@" ++ toString ac.threshold ++ "%" else "OFF"
                    some ⟨"[" ++ pyFStr displayJ ++ "] ctx:" ++ toString n ++ "%" ++
                          gitPart ++ " [AC:" ++ acPart ++ "]", store3, true⟩)
               | _ => none))
     | _ => none)
  | _ => none

/-- Embeds `main` (statusline.py:335): the three skip conditions, stdin
parsing (`none` models a parse failure, caught and silenced), the falsy-
input early return, then the body. -/
def mainModel (w : MainWorld) : Option MainResult :=
  if envGet w.env "JACQUES_SUBPROCESS" = some "1" then some ⟨"", w.store, false⟩
  else if envGet w.env "JACQUES_SKIP" = some "1" then some ⟨"", w.store, false⟩
  else if w.skipFileExists then some ⟨"", w.store, false⟩
  else
    match w.stdin with
    | none => some ⟨"", w.store, false⟩
    | some input =>
      if jsonTruthy input = false then some ⟨"", w.store, false⟩
      else mainBody input w

/-- A git world where nothing is resolvable: no directory exists, no
helper script, every subprocess raises. -/
def emptyGitWorld : GitWorld := ⟨fun _ => false, false, false, none, none, fun s => s⟩

/-- A title world with no index file and no transcript on disk. -/
def emptyTitleWorld : TitleWorld := ⟨fun _ => none, fun _ => none⟩

/-- A POSIX send world whose socket path does not exist. -/
def emptySendWorld : SendWorld := ⟨false, none, fun _ => false, Except.ok ()⟩

/-- A clean invocation world: empty environment, no skip marker, empty
cache store, no config file, nothing resolvable, clock at 0. -/
def baseWorld (stdin : Option Json) : MainWorld :=
  ⟨[], false, stdin, 0, 0, [], emptyGitWorld, emptyTitleWorld, none, emptySendWorld⟩

example : mainModel (baseWorld (some (Json.obj []))) = some ⟨"", [], false⟩ := by decide

example : mainModel (baseWorld (some (Json.obj [("session_id", Json.str "s1"),
    ("context_window", Json.obj [("used_percentage", Json.num 42)]),
    ("model", Json.obj [("display_name", Json.str "Foo")])])))
    = some ⟨"[Foo] ctx:42% [AC:ON@95%]", [(settingsCachePath, ⟨"true|95|null", 0⟩)], true⟩ := by
  decide

example : pyStrip "  hi\n " = "hi" := by decide
example : splitChar '|' "true|95|null" = ["true", "95", "null"] := by decide
example : splitChar '|' "" = [""] := by decide
example : pyIntOfString " 95 " = some 95 := by decide
example : pyIntOfString "abc" = none := by decide
example : pyIntOfString "-7" = some (-7) := by decide
example : pyDirname "/a/b/c.txt" = "/a/b" := by decide
example : pyBasename "/a/b" = "b" := by decide
example : pyJoin "/a" "b" = "/a/b" := by decide
example : pyJoin "/a" "/x/.git" = "/x/.git" := by decide
example : cache_path "git" "/x/y" = "/tmp/jacques-git--x-y.cache" := by decide

/-- C9: a cache write immediately followed by a read of the same
namespace and key with ttl ≥ 0 returns the written value, for all
non-empty namespace, key and value; and a value written at time T is
returned by a read at time T+ttl-1 and not returned at time T+ttl+1. -/
theorem c9_cache_roundtrip_expiry :
    (∀ (store : Store) (ns k v : String) (T ttl : Int),
      ns ≠ "" → k ≠ "" → v ≠ "" → 0 ≤ ttl →
      read_cache (write_cache store (cache_path ns k) v T) (cache_path ns k) ttl T = some v)
    ∧ (∀ (store : Store) (ns k v : String) (T ttl : Int),
      read_cache (write_cache store (cache_path ns k) v T) (cache_path ns k) ttl (T + ttl - 1)
        = some v
      ∧ read_cache (write_cache store (cache_path ns k) v T) (cache_path ns k) ttl (T + ttl + 1)
        = none) := by
  have hget : ∀ (store : Store) (p v : String) (T : Int),
      storeGet (write_cache store p v T) p = some ⟨v, T⟩ := by
    intro store p v T
    simp [write_cache, storeGet]
  constructor
  · intro store ns k v T ttl _ _ _ httl
    simp only [read_cache, hget]
    rw [if_neg (by omega)]
  · intro store ns k v T ttl
    constructor
    · simp only [read_cache, hget]
      rw [if_neg (by omega)]
    · simp only [read_cache, hget]
      rw [if_pos (by omega)]

/-- C9 witness at namespace "git", key "k", value "v", T = 0, ttl = 5. -/
theorem c9_witness :
    read_cache (write_cache [] (cache_path "git" "k") "v" 0) (cache_path "git" "k") 5 0
      = some "v"
    ∧ read_cache (write_cache [] (cache_path "git" "k") "v" 0) (cache_path "git" "k") 5 4
      = some "v"
    ∧ read_cache (write_cache [] (cache_path "git" "k") "v" 0) (cache_path "git" "k") 5 6
      = none :=
  ⟨c9_cache_roundtrip_expiry.1 [] "git" "k" "v" 0 5 (by decide) (by decide) (by decide)
      (by decide),
   (c9_cache_roundtrip_expiry.2 [] "git" "k" "v" 0 5).1,
   (c9_cache_roundtrip_expiry.2 [] "git" "k" "v" 0 5).2⟩

/-- C5: the transport converts every I/O failure to not-delivered (it
never throws past its boundary: `send_to_server` is total with a boolean
outcome), and on POSIX a missing socket path short-circuits to
not-delivered without attempting a connection. -/
theorem c5_transport_never_throws :
    (∀ (p : Payload) (w : SendWorld), w.ioResult = Except.error () →
      (send_to_server p w).delivered = false)
    ∧ (∀ (p : Payload) (w : SendWorld), w.isWindows = false →
      w.pathExists (jacquesSocketPath w) = false →
      send_to_server p w = ⟨false, false⟩) := by
  constructor
  · intro p w h
    by_cases hw : w.isWindows = true
    · simp [send_to_server, hw, h]
    · by_cases hp : w.pathExists (jacquesSocketPath w) = false
      · simp [send_to_server, hw, hp, h]
      · simp [send_to_server, hw, hp, h]
  · intro p w hwin hpath
    simp [send_to_server, hwin, hpath]

/-- A concrete payload for transport witnesses. -/
def dummyPayload : Payload :=
  ⟨"s", Json.num 0, Json.num 100, Json.num 0, Json.num 0, Json.num 0,
   Json.str "unknown", Json.str "Unknown", Json.str "", Json.str "", 0,
   ⟨true, 95, none⟩, "", "", Json.str "", "", "", ""⟩

/-- C5 witness: a POSIX world with a raising connection on an existing
socket, and a POSIX world with a missing socket path. -/
theorem c5_witness :
    (send_to_server dummyPayload ⟨false, none, fun _ => true, Except.error ()⟩).delivered
      = false
    ∧ send_to_server dummyPayload ⟨false, none, fun _ => false, Except.ok ()⟩
      = ⟨false, false⟩ :=
  ⟨c5_transport_never_throws.1 dummyPayload ⟨false, none, fun _ => true, Except.error ()⟩ rfl,
   c5_transport_never_throws.2 dummyPayload ⟨false, none, fun _ => false, Except.ok ()⟩ rfl rfl⟩

/-- Decidable equality for `Except`, for evaluating settings-resolver
results on concrete inputs. -/
instance exceptDecEq {ε α : Type} [DecidableEq ε] [DecidableEq α] :
    DecidableEq (Except ε α)
  | Except.ok a, Except.ok b =>
    if h : a = b then isTrue (by rw [h]) else isFalse (by intro hh; cases hh; exact h rfl)
  | Except.ok _, Except.error _ => isFalse (by intro h; cases h)
  | Except.error _, Except.ok _ => isFalse (by intro h; cases h)
  | Except.error e, Except.error f =>
    if h : e = f then isTrue (by rw [h]) else isFalse (by intro hh; cases hh; exact h rfl)

/-- C2: contrary to the claim, the settings resolver does raise on a
cached string of three pipe-delimited fields whose third field is neither
`null` nor an integer: `int(parts[2])` (statusline.py:248) is not guarded
by a try/except, so the `ValueError` aborts the pipeline instead of
falling back to the per-field default. -/
theorem c2_bug_threshold_field_raises :
    read_autocompact_settings [] none [(settingsCachePath, ⟨"true|95|oops", 0⟩)] 0
      = Except.error () := by decide

/-- C6 counterexample: with the environment override variable set to the
unparsable string "abc", the settings resolver raises (`int` at
statusline.py:234 is unguarded) instead of defaulting the threshold to
95. -/
theorem c6_counterexample_unparsable_override :
    read_autocompact_settings [("CLAUDE_AUTOCOMPACT_PCT_OVERRIDE", "abc")] none [] 0
      = Except.error () := by decide

/-- C6 as amended: on a settings cache miss, with no config file and no
environment override the resolver yields enabled=true, threshold=95,
bugThreshold=absent (and re-caches the triple); with a config file whose
`autoCompact` is `false` it yields enabled=false, threshold=95,
bugThreshold=78; but when the override variable is set to a string that
is not a valid integer, the resolver raises instead of defaulting the
threshold to 95. -/
theorem c6_settings_resolution :
    (∀ (env : EnvList) (store : Store) (now : Int),
      envGet env "CLAUDE_AUTOCOMPACT_PCT_OVERRIDE" = none →
      read_cache store settingsCachePath 300 now = none →
      read_autocompact_settings env none store now =
        Except.ok (⟨true, 95, none⟩, write_cache store settingsCachePath "true|95|null" now))
    ∧ (∀ (env : EnvList) (store : Store) (now : Int) (d : Json),
      envGet env "CLAUDE_AUTOCOMPACT_PCT_OVERRIDE" = none →
      read_cache store settingsCachePath 300 now = none →
      jGet d "autoCompact" = some (Json.bool false) →
      read_autocompact_settings env (some d) store now =
        Except.ok (⟨false, 95, some 78⟩, write_cache store settingsCachePath "false|95|78" now))
    ∧ (∀ (env : EnvList) (store : Store) (now : Int) (s : String),
      envGet env "CLAUDE_AUTOCOMPACT_PCT_OVERRIDE" = some s →
      pyIntOfString s = none →
      read_autocompact_settings env none store now = Except.error ()) := by
  have h95 : pyIntOfString "95" = some 95 := by decide
  refine ⟨?_, ?_, ?_⟩
  · intro env store now henv hmiss
    simp only [read_autocompact_settings, henv, Option.getD_none, h95, hmiss]
    rfl
  · intro env store now d henv hmiss hac
    cases d with
    | obj fields =>
      simp only [read_autocompact_settings, henv, Option.getD_none, h95, hmiss, hac]
      rfl
    | null => exact Option.noConfusion hac
    | bool b => exact Option.noConfusion hac
    | num n => exact Option.noConfusion hac
    | str s => exact Option.noConfusion hac
    | arr xs => exact Option.noConfusion hac
  · intro env store now s henv hps
    simp only [read_autocompact_settings, henv, Option.getD_some, hps]

/-- C6 witness: the default resolution and the `autoCompact: false`
override, both from an empty cache at time 0. -/
theorem c6_witness :
    read_autocompact_settings [] none [] 0 =
      Except.ok (⟨true, 95, none⟩, write_cache [] settingsCachePath "true|95|null" 0)
    ∧ read_autocompact_settings [] (some (Json.obj [("autoCompact", Json.bool false)])) [] 0 =
      Except.ok (⟨false, 95, some 78⟩, write_cache [] settingsCachePath "false|95|78" 0) :=
  ⟨c6_settings_resolution.1 [] [] 0 rfl rfl,
   c6_settings_resolution.2.1 [] [] 0 (Json.obj [("autoCompact", Json.bool false)]) rfl rfl rfl⟩

/-- C8: when the directory does not exist, the git resolver returns the
all-empty GitContext without reading or writing the cache; and on every
cache miss for an existing directory, the three newline-joined fields of
the final result are written back to the cache before returning, whatever
their values. -/
theorem c8_git_cache_discipline :
    (∀ (dir : String) (w : GitWorld) (store : Store) (now : Int),
      w.isDir dir = false →
      detect_git_info dir w store now = ⟨⟨"", "", ""⟩, store, false, false⟩)
    ∧ (∀ (dir : String) (w : GitWorld) (store : Store) (now : Int),
      dir ≠ "" →
      w.isDir dir = true →
      read_cache store (cache_path "git" dir) 60 now = none →
      ∃ g : GitInfo, detect_git_info dir w store now =
        ⟨g, write_cache store (cache_path "git" dir) (joinGitFields g) now, true, true⟩) := by
  constructor
  · intro dir w store now hdir
    simp [detect_git_info, hdir]
  · intro dir w store now hne hdir hmiss
    have hcond : ¬ (dir = "" ∨ w.isDir dir = false) := by simp [hne, hdir]
    unfold detect_git_info
    rw [if_neg hcond]
    simp only [hmiss]
    split
    · exact ⟨_, rfl⟩
    · exact ⟨_, rfl⟩

/-- A transcript line holding a summary record with summary text `s`. -/
def summaryLine (s : String) : TranscriptLine :=
  ⟨true, false, some (Json.obj [("type", Json.str "summary"), ("summary", Json.str s)])⟩

/-- A transcript line holding a user record whose message content is the
plain string `c`. -/
def userLine (c : String) : TranscriptLine :=
  ⟨false, true, some (Json.obj [("type", Json.str "user"),
    ("message", Json.obj [("content", Json.str c)])])⟩

/-- A sessions-index document with a single entry for session `sid`
carrying summary `s`. -/
def indexWith (sid s : String) : Json :=
  Json.obj [("entries", Json.arr
    [Json.obj [("sessionId", Json.str sid), ("summary", Json.str s)]])]

/-- A title world where the sessions-index sibling of `tp` has content
`idx` and the transcript at `tp` has lines `ls`. -/
def titleWorldOf (tp : String) (idx : Option Json) (ls : Option (List TranscriptLine)) :
    TitleWorld :=
  ⟨fun p => if p = pyJoin (pyDirname tp) "sessions-index.json" then idx else none,
   fun p => if p = tp then ls else none⟩

/-- Appending the ellipsis marker never produces the empty string. -/
theorem append_dots_ne_empty (a : String) : a ++ "..." ≠ "" := by
  intro h
  have hl := congrArg String.length h
  rw [String.length_append] at hl
  have h3 : ("..." : String).length = 3 := rfl
  have h0 : ("" : String).length = 0 := rfl
  rw [h3, h0] at hl
  omega

/-- A transcript line is benign for the tier-2 scan when, if it carries
the summary tag, it either fails to parse or parses to a dict (so the
scan is not aborted by a raising `entry.get`). -/
def summaryBenign (l : TranscriptLine) : Prop :=
  l.hasSummaryTag = true → (l.parsed = none ∨ ∃ fs, l.parsed = some (Json.obj fs))

/-- The tier-2 scan of any benign prefix followed by a summary record
with non-empty summary `s` yields `s`: the last non-empty summary in file
order wins, whatever summaries came before. -/
theorem tier2Scan_append_last (s : String) (hs : s ≠ "") :
    ∀ (ls : List TranscriptLine) (acc : String), (∀ l ∈ ls, summaryBenign l) →
      tier2Scan (ls ++ [summaryLine s]) acc = s := by
  intro ls
  induction ls with
  | nil =>
    intro acc _
    simp [tier2Scan, summaryLine, jGetStrD, jGet, hs]
  | cons l rest ih =>
    intro acc hb
    have hl := hb l (List.mem_cons_self l rest)
    have hrest : ∀ x ∈ rest, summaryBenign x := fun x hx => hb x (List.mem_cons_of_mem l hx)
    by_cases ht : l.hasSummaryTag = true
    · rcases hl ht with hp | ⟨fs, hp⟩
      · simp only [List.cons_append, tier2Scan, ht, if_pos rfl, hp]
        exact ih acc hrest
      · simp only [List.cons_append, tier2Scan, ht, if_pos rfl, hp]
        exact ih _ hrest
    · simp only [List.cons_append, tier2Scan, if_neg ht]
      exact ih acc hrest

/-- C8 witness: a nonexistent directory, and an existing directory on
which every resolution strategy fails (the empty fields are still
cached). -/
theorem c8_witness :
    detect_git_info "/p" emptyGitWorld [] 0 = ⟨⟨"", "", ""⟩, [], false, false⟩
    ∧ ∃ g : GitInfo,
      detect_git_info "/q" ⟨fun _ => true, false, false, none, none, fun s => s⟩ [] 0 =
        ⟨g, write_cache [] (cache_path "git" "/q") (joinGitFields g) 0, true, true⟩ :=
  ⟨c8_git_cache_discipline.1 "/p" emptyGitWorld [] 0 rfl,
   c8_git_cache_discipline.2 "/q" ⟨fun _ => true, false, false, none, none, fun s => s⟩ [] 0
     (by decide) rfl rfl⟩

/-- C7: on a title cache miss the tiers are tried in order with the first
non-empty result winning — an index entry with non-empty summary A beats
a transcript whose last summary record is B — and within tier 2, of all
the non-empty summary records in the transcript, the last one in file
order is kept, whatever non-empty summaries precede it. -/
theorem c7_title_tier_order :
    (∀ (A B sid : String), A ≠ "" → sid ≠ "" →
      (extract_session_title sid "/t/s.jsonl"
        (titleWorldOf "/t/s.jsonl" (some (indexWith sid A)) (some [summaryLine B])) [] 0).1
        = A)
    ∧ (∀ (ls : List TranscriptLine) (s : String),
      (∀ l ∈ ls, summaryBenign l) → s ≠ "" →
      tier2Scan (ls ++ [summaryLine s]) "" = s) := by
  constructor
  · intro A B sid hA hsid
    simp [extract_session_title, hsid, read_cache, storeGet, titleWorldOf,
          indexWith, indexTitle, indexFirstMatch, jGet, jGetStrD, hA]
  · intro ls s hb hs
    exact tier2Scan_append_last s hs ls "" hb

/-- C7 witness: index summary "A" beats transcript summary "B", and of
two non-empty transcript summaries the later one is kept. -/
theorem c7_witness :
    (extract_session_title "s1" "/t/s.jsonl"
      (titleWorldOf "/t/s.jsonl" (some (indexWith "s1" "A")) (some [summaryLine "B"])) [] 0).1
      = "A"
    ∧ tier2Scan ([summaryLine "first"] ++ [summaryLine "last"]) "" = "last" :=
  ⟨c7_title_tier_order.1 "A" "B" "s1" (by decide) (by decide),
   c7_title_tier_order.2 [summaryLine "first"] "last"
     (by
       intro l hl
       simp only [List.mem_singleton] at hl
       subst hl
       intro _
       exact Or.inr ⟨_, rfl⟩)
     (by decide)⟩

/-- The result of the title resolver on a cache miss for a transcript
consisting of one plain-string user message (no index, no summaries):
the stripped, newline-collapsed content truncated to 50 characters with
the ellipsis marker appended. -/
theorem extract_single_user_line (sid tp msg : String) (hsid : sid ≠ "") (htp : tp ≠ "")
    (hmsg : msg ≠ "") (hlt : pyTake (pyStrip msg) 1 ≠ "<")
    (hlb : pyTake (pyStrip msg) 1 ≠ "[") :
    (extract_session_title sid tp (titleWorldOf tp none (some [userLine msg])) [] 0).1 =
      pyTake (collapseNewlines (pyStrip msg)) 50 ++ "..." := by
  have hne := append_dots_ne_empty (pyTake (collapseNewlines (pyStrip msg)) 50)
  simp [extract_session_title, hsid, htp, read_cache, storeGet, titleWorldOf,
        tier2Scan, tier3Scan, userLine, jGetD, jGet, jsonIsObj, hmsg, hlt, hlb, hne]

/-- A 60-character message for the C3 counterexample. -/
def msg60 : String := String.mk (List.replicate 60 'a')

/-- C3 counterexample: for a 60-character first user message the title is
the first 50 characters plus the ellipsis marker, not the first 53
characters plus the ellipsis marker as claimed. -/
theorem c3_counterexample_truncation :
    (extract_session_title "s1" "/t/s.jsonl"
      (titleWorldOf "/t/s.jsonl" none (some [userLine msg60])) [] 0).1 =
      pyTake (collapseNewlines (pyStrip msg60)) 50 ++ "..."
    ∧ (extract_session_title "s1" "/t/s.jsonl"
      (titleWorldOf "/t/s.jsonl" none (some [userLine msg60])) [] 0).1 ≠
      pyTake (collapseNewlines (pyStrip msg60)) 53 ++ "..." := by
  constructor
  · decide
  · decide

/-- C3 as amended: with no index entry and no summary record, a first
plain-string user message longer than 50 characters yields exactly the
first 50 characters of the trimmed, newline-collapsed message followed by
the ellipsis marker — 53 characters in total. -/
theorem c3_first_user_message_truncation :
    ∀ (msg : String), msg ≠ "" →
      pyTake (pyStrip msg) 1 ≠ "<" →
      pyTake (pyStrip msg) 1 ≠ "[" →
      50 < (pyStrip msg).length →
      (extract_session_title "s1" "/t/s.jsonl"
        (titleWorldOf "/t/s.jsonl" none (some [userLine msg])) [] 0).1 =
        pyTake (collapseNewlines (pyStrip msg)) 50 ++ "..."
      ∧ ((extract_session_title "s1" "/t/s.jsonl"
        (titleWorldOf "/t/s.jsonl" none (some [userLine msg])) [] 0).1).length = 53 := by
  intro msg hmsg hlt hlb hlen
  have he := extract_single_user_line "s1" "/t/s.jsonl" msg (by decide) (by decide) hmsg hlt hlb
  refine ⟨he, ?_⟩
  rw [he, String.length_append]
  have hdl : (pyStrip msg).data.length = (pyStrip msg).length := rfl
  have htk : (pyTake (collapseNewlines (pyStrip msg)) 50).length = 50 := by
    simp only [pyTake, collapseNewlines, String.length_mk, List.length_take, List.length_map]
    omega
  rw [htk]
  rfl

/-- C3 witness at a 61-character message of 'b's. -/
theorem c3_witness :
    (extract_session_title "s1" "/t/s.jsonl"
      (titleWorldOf "/t/s.jsonl" none
        (some [userLine (String.mk (List.replicate 61 'b'))])) [] 0).1
      = String.mk (List.replicate 50 'b') ++ "..."
    ∧ ((extract_session_title "s1" "/t/s.jsonl"
      (titleWorldOf "/t/s.jsonl" none
        (some [userLine (String.mk (List.replicate 61 'b'))])) [] 0).1).length = 53 :=
  have h := c3_first_user_message_truncation (String.mk (List.replicate 61 'b'))
    (by decide) (by decide) (by decide) (by decide)
  ⟨h.1.trans (by decide), h.2⟩

/-- C10: every tier-3 title is the first 50 characters of the trimmed,
newline-collapsed content with the ellipsis marker appended
unconditionally, even when the message is 50 characters or shorter. -/
theorem c10_tier3_unconditional_ellipsis :
    ∀ (msg : String), msg ≠ "" →
      pyTake (pyStrip msg) 1 ≠ "<" →
      pyTake (pyStrip msg) 1 ≠ "[" →
      (extract_session_title "s2" "/u/t.jsonl"
        (titleWorldOf "/u/t.jsonl" none (some [userLine msg])) [] 0).1 =
        pyTake (collapseNewlines (pyStrip msg)) 50 ++ "..." := by
  intro msg hmsg hlt hlb
  exact extract_single_user_line "s2" "/u/t.jsonl" msg (by decide) (by decide) hmsg hlt hlb

/-- C1 counterexample: the input `{}` parses to an empty document, which
is falsy, so `main` returns silently (statusline.py:351-352) — it writes
nothing at all, not the placeholder `ctx:?%`. -/
theorem c1_counterexample_empty_object :
    mainModel (baseWorld (some (Json.obj []))) = some ⟨"", [], false⟩
    ∧ ("" : String) ≠ "ctx:?%" := by
  constructor
  · decide
  · decide

/-- C1 as amended: for every non-empty input document whose session_id is
absent or the empty string, a completed run writes exactly `ctx:?%` and
attempts no transport send; but the resolvers are not skipped — the
settings resolver still runs before the session-id check and writes its
cache, as the concrete run in the second conjunct shows (the final store
differs from the initial empty store); the input `{}` itself is falsy and
exits silently with no output. -/
theorem c1_placeholder_no_send :
    (∀ (w : MainWorld) (input : Json) (r : MainResult),
      envGet w.env "JACQUES_SUBPROCESS" ≠ some "1" →
      envGet w.env "JACQUES_SKIP" ≠ some "1" →
      w.skipFileExists = false →
      w.stdin = some input →
      jsonTruthy input = true →
      (jGet input "session_id" = none ∨ jGet input "session_id" = some (Json.str "")) →
      mainModel w = some r →
      r.stdout = "ctx:?%" ∧ r.sendAttempted = false)
    ∧ mainModel (baseWorld (some (Json.obj [("cwd", Json.str "")]))) =
        some ⟨"ctx:?%", [(settingsCachePath, ⟨"true|95|null", 0⟩)], false⟩ := by
  constructor
  · intro w input r h1 h2 h3 hsin htr hsid hm
    simp [mainModel, h1, h2, h3, hsin, htr] at hm
    cases input with
    | null => exact Option.noConfusion hm
    | bool b => exact Option.noConfusion hm
    | num n => exact Option.noConfusion hm
    | str s => exact Option.noConfusion hm
    | arr xs => exact Option.noConfusion hm
    | obj fs =>
      have hS : jGetD (Json.obj fs) "session_id" (Json.str "") = Json.str "" := by
        rcases hsid with h | h <;> simp [jGetD, h]
      have hTf : jsonTruthy (Json.str "") = false := rfl
      simp only [mainBody, hS, hTf] at hm
      simp at hm
      repeat'
        first
          | exact Option.noConfusion hm
          | (cases hm
             exact ⟨rfl, rfl⟩)
          | split at hm
  · decide

/-- C1 witness: the amended placeholder property at the concrete world of
the second conjunct. -/
theorem c1_witness :
    (⟨"ctx:?%", [(settingsCachePath, ⟨"true|95|null", 0⟩)], false⟩ : MainResult).stdout
      = "ctx:?%"
    ∧ (⟨"ctx:?%", [(settingsCachePath, ⟨"true|95|null", 0⟩)], false⟩ : MainResult).sendAttempted
      = false :=
  c1_placeholder_no_send.1 (baseWorld (some (Json.obj [("cwd", Json.str "")])))
    (Json.obj [("cwd", Json.str "")])
    ⟨"ctx:?%", [(settingsCachePath, ⟨"true|95|null", 0⟩)], false⟩
    (by decide) (by decide) rfl rfl (by decide) (Or.inl rfl)
    c1_placeholder_no_send.2

/-- The end-to-end full-record input of C4. -/
def c4Input : Json :=
  Json.obj [("session_id", Json.str "s1"),
    ("context_window", Json.obj [("used_percentage", Json.num 42)]),
    ("model", Json.obj [("display_name", Json.str "Foo")])]

/-- The full-record input of C4 extended with a working directory, so the
git resolver runs. -/
def c4BranchInput : Json :=
  Json.obj [("session_id", Json.str "s1"),
    ("context_window", Json.obj [("used_percentage", Json.num 42)]),
    ("model", Json.obj [("display_name", Json.str "Foo")]),
    ("cwd", Json.str "/repo")]

/-- A world for `c4BranchInput` where the inline git query succeeds with
branch `main` and an in-place `.git` marker. -/
def c4BranchWorld : MainWorld :=
  ⟨[], false, some c4BranchInput, 0, 0, [],
   ⟨fun _ => true, false, false, none, some (0, "main\n.git\n"), fun s => s⟩,
   emptyTitleWorld, none, emptySendWorld⟩

/-- C4: every completed run with a non-empty string session id writes a
status line of the form `[<display name>] ctx:<int>%[ @<branch>]
[AC:ON@<threshold>%|OFF]`, where the integer is `int()` of the
context-used percentage (0 when falsy), the branch is the one resolved by
the run's git step (`gitResOf`) and appears exactly when it is non-empty,
and the auto-compact part shows the enabled flag and threshold resolved by
the run's settings step; the concrete full-record input with no resolvable
git context yields exactly `[Foo] ctx:42% [AC:ON@95%]`, and the same input
in a world whose git query resolves branch `main` yields exactly
`[Foo] ctx:42% @main [AC:ON@95%]`. -/
theorem c4_status_line_format :
    (∀ (w : MainWorld) (input : Json) (r : MainResult) (s : String),
      envGet w.env "JACQUES_SUBPROCESS" ≠ some "1" →
      envGet w.env "JACQUES_SKIP" ≠ some "1" →
      w.skipFileExists = false →
      w.stdin = some input →
      jGet input "session_id" = some (Json.str s) →
      s ≠ "" →
      mainModel w = some r →
      ∃ (n : Int) (ac : ACSettings) (store2 store3 : Store) (t : String),
        usedIntOf input = some n ∧
        titlePairOf input w (gitResOf input w).store = some (t, store2) ∧
        read_autocompact_settings w.env w.configData store2 w.nowSec
          = Except.ok (ac, store3) ∧
        r.stdout = "[" ++ pyFStr (modelDisplayOf input) ++ "] ctx:" ++ toString n ++ "%" ++
          (if (gitResOf input w).info.git_branch = "" then ""
           else " @" ++ (gitResOf input w).info.git_branch) ++ " [AC:" ++
          (if ac.enabled then "ON@" ++ toString ac.threshold ++ "%" else "OFF") ++ "]" ∧
        r.sendAttempted = true)
    ∧ mainModel (baseWorld (some c4Input)) =
        some ⟨"[Foo] ctx:42% [AC:ON@95%]", [(settingsCachePath, ⟨"true|95|null", 0⟩)], true⟩
    ∧ mainModel c4BranchWorld =
        some ⟨"[Foo] ctx:42% @main [AC:ON@95%]",
          [(settingsCachePath, ⟨"true|95|null", 0⟩),
           (cache_path "git" "/repo", ⟨"main\n\n/repo", 0⟩)], true⟩ := by
  refine ⟨?_, by decide, by decide⟩
  intro w input r s h1 h2 h3 hsin hsid hs hm
  cases input with
  | null => exact Option.noConfusion hsid
  | bool b => exact Option.noConfusion hsid
  | num n => exact Option.noConfusion hsid
  | str t => exact Option.noConfusion hsid
  | arr xs => exact Option.noConfusion hsid
  | obj fs =>
    have hS : jGetD (Json.obj fs) "session_id" (Json.str "") = Json.str s := by
      simp [jGetD, hsid]
    have hTs : jsonTruthy (Json.str s) = true := by simp [jsonTruthy, hs]
    have htr : jsonTruthy (Json.obj fs) = true := by
      cases fs with
      | nil => simp [jGet] at hsid
      | cons a l => rfl
    simp [mainModel, h1, h2, h3, hsin, htr] at hm
    simp only [mainBody, hS, hTs] at hm
    simp at hm
    split at hm
    · split at hm
      · exact Option.noConfusion hm
      · rename_i t store2 heqT
        split at hm
        · exact Option.noConfusion hm
        · rename_i ac store3 heqS
          split at hm
          · exact Option.noConfusion hm
          · rename_i n heqN
            cases hm
            exact ⟨n, ac, store2, store3, t, heqN, heqT, heqS, rfl, rfl⟩
    · exact Option.noConfusion hm

/-- C4 witness: the general format property applied at the concrete
full-record input (no resolvable git context). -/
theorem c4_witness :
    ∃ (n : Int) (ac : ACSettings) (store2 store3 : Store) (t : String),
      usedIntOf c4Input = some n ∧
      titlePairOf c4Input (baseWorld (some c4Input))
        (gitResOf c4Input (baseWorld (some c4Input))).store = some (t, store2) ∧
      read_autocompact_settings (baseWorld (some c4Input)).env
        (baseWorld (some c4Input)).configData store2 (baseWorld (some c4Input)).nowSec
        = Except.ok (ac, store3) ∧
      (⟨"[Foo] ctx:42% [AC:ON@95%]", [(settingsCachePath, ⟨"true|95|null", 0⟩)],
        true⟩ : MainResult).stdout =
        "[" ++ pyFStr (modelDisplayOf c4Input) ++ "] ctx:" ++ toString n ++ "%" ++
        (if (gitResOf c4Input (baseWorld (some c4Input))).info.git_branch = "" then ""
         else " @" ++ (gitResOf c4Input (baseWorld (some c4Input))).info.git_branch) ++
        " [AC:" ++
        (if ac.enabled then "ON@" ++ toString ac.threshold ++ "%" else "OFF") ++ "]" ∧
      (⟨"[Foo] ctx:42% [AC:ON@95%]", [(settingsCachePath, ⟨"true|95|null", 0⟩)],
        true⟩ : MainResult).sendAttempted = true :=
  c4_status_line_format.1 (baseWorld (some c4Input)) c4Input
    ⟨"[Foo] ctx:42% [AC:ON@95%]", [(settingsCachePath, ⟨"true|95|null", 0⟩)], true⟩ "s1"
    (by decide) (by decide) rfl rfl rfl (by decide)
    c4_status_line_format.2.1

/-- C10 witness: a 2-character message still gets the ellipsis marker. -/
theorem c10_witness :
    (extract_session_title "s2" "/u/t.jsonl"
      (titleWorldOf "/u/t.jsonl" none (some [userLine "hi"])) [] 0).1 = "hi..." :=
  (c10_tier3_unconditional_ellipsis "hi" (by decide) (by decide) (by decide)).trans (by decide)
